import Mathlib

/-!
# Verification of the lazy pluggable-backend registry of open-webui

Shallow embedding of two modules:

* `backend/open_webui/utils/optimized_loading.py` — the symbol cache
  (`get_module`, `get_module_attr`, both wrapped in `lru_cache`), the lazy
  proxies (`LazyImport`, `LazyAttribute`) and the invalidation hook
  (`clear_module_cache`).
* `backend/open_webui/retrieval/vector/factory.py` — the backend registry
  dispatch (`Vector.get_vector`), the singleton accessor
  (`get_vector_db_client` over the module-global `_vector_db_client`) and the
  guarded proxy (`VectorDBClientLazy` / `VECTOR_DB_CLIENT`).

Python's dynamic world is modelled explicitly: a `PVal` is a Python value
where `PVal.none` is Python `None`; a `PyEnv` maps module names to modules
(a missing name makes `importlib.import_module` raise `ImportError`); a
module maps attribute names to values (a missing name makes `getattr` raise
`AttributeError`).  `functools.lru_cache` caches only successful results —
a raised exception stores nothing — and that behaviour is embedded as-is.
Ghost invocation counters (`loadCount`, `getattrCount`, `dispatchCount`)
instrument the loader and the registry dispatch; they mirror the loader
invocation counters the spec itself proposes for testing and change no
control flow.
-/

namespace OWUI

/-- A Python value: `PVal.none` is Python `None`; `PVal.obj t` is any other
object, identified by a tag. -/
inductive PVal where
  | none
  | obj (tag : String)
deriving DecidableEq, Repr

/-- A Python module: its name and its attribute dictionary. `getattr` on a
name absent from `attrs` raises `AttributeError`; a present attribute may
still have the value `None`. -/
structure PyModule where
  name : String
  attrs : List (String × PVal)
deriving DecidableEq, Repr

/-- The import system: the modules `importlib.import_module` can load.  A
name not in the list raises `ImportError`. -/
structure PyEnv where
  modules : List (String × PyModule)

/-- `importlib.import_module` -/
def pyImport (env : PyEnv) (module_name : String) : Option PyModule :=
  env.modules.lookup module_name

/-- `getattr(module, attr_name)`: `Option.none` models a raised
`AttributeError`. -/
def pyGetattr (m : PyModule) (attr_name : String) : Option PVal :=
  m.attrs.lookup attr_name

/-- The exceptions raised by `optimized_loading.py`. -/
inductive LoadErr where
  | importError (module_name : String)
  | attributeError (module_name attr_name : String)
deriving DecidableEq, Repr

/-- The mutable state of `optimized_loading.py`: the two `lru_cache` tables
(of `get_module` and `get_module_attr`), plus ghost invocation counters —
`loadCount` counts `importlib.import_module` invocations and `getattrCount`
counts the `getattr` attempts inside `get_module_attr`. -/
structure LoadState where
  modCache : List (String × PyModule)
  attrCache : List ((String × String) × PVal)
  loadCount : Nat
  getattrCount : Nat
deriving DecidableEq, Repr

/-- Process start: both caches empty. -/
def initLoadState : LoadState := ⟨[], [], 0, 0⟩

/-- `get_module(module_name)`: `lru_cache`-wrapped
`importlib.import_module`.  A hit returns the cached module untouched; a
miss invokes the import, caching the result only on success (Python's
`lru_cache` stores nothing when the wrapped call raises). -/
def get_module (env : PyEnv) (s : LoadState) (module_name : String) :
    Except LoadErr PyModule × LoadState :=
  match s.modCache.lookup module_name with
  | some m => (.ok m, s)
  | Option.none =>
    match pyImport env module_name with
    | some m =>
        (.ok m, { s with modCache := (module_name, m) :: s.modCache,
                         loadCount := s.loadCount + 1 })
    | Option.none =>
        (.error (.importError module_name), { s with loadCount := s.loadCount + 1 })

/-- `get_module_attr(module_name, attr_name)`: `lru_cache`-wrapped
`getattr(get_module(module_name), attr_name)`.  A hit on the compound key
returns the cached value; a miss resolves the module through `get_module`
(which has its own cache) and then the attribute, caching only on success. -/
def get_module_attr (env : PyEnv) (s : LoadState) (module_name attr_name : String) :
    Except LoadErr PVal × LoadState :=
  match s.attrCache.lookup (module_name, attr_name) with
  | some v => (.ok v, s)
  | Option.none =>
    match get_module env s module_name with
    | (.error e, s1) => (.error e, s1)
    | (.ok m, s1) =>
      let s2 := { s1 with getattrCount := s1.getattrCount + 1 }
      match pyGetattr m attr_name with
      | some v =>
          (.ok v, { s2 with attrCache := ((module_name, attr_name), v) :: s2.attrCache })
      | Option.none => (.error (.attributeError module_name attr_name), s2)

/-- `clear_module_cache()`: clears both `lru_cache` tables.  The ghost
counters are instrumentation, not cache state, and persist. -/
def clear_module_cache (s : LoadState) : LoadState :=
  { s with modCache := [], attrCache := [] }

/-- `LazyImport`: `_module` is `Optional[Any] = None`; a resolved module is
stored locally.  (`import_module` never returns `None`, so `Option` is the
exact image of the `is None` test here.) -/
structure LazyImport where
  module_name : String
  module : Option PyModule
deriving DecidableEq, Repr

/-- `LazyImport(module_name)`: construction does no work. -/
def LazyImport.mk0 (module_name : String) : LazyImport := ⟨module_name, Option.none⟩

/-- `LazyImport.__getattr__(self, name)`: resolve through `get_module` on
first access (storing the module in `self._module`; a raise leaves it
unassigned), then forward `getattr` to the stored module. -/
def LazyImport.getattrAccess (env : PyEnv) (s : LoadState) (li : LazyImport)
    (name : String) : (Except LoadErr PVal × LazyImport) × LoadState :=
  match li.module with
  | some m =>
    match pyGetattr m name with
    | some v => ((.ok v, li), s)
    | Option.none => ((.error (.attributeError li.module_name name), li), s)
  | Option.none =>
    match get_module env s li.module_name with
    | (.error e, s1) => ((.error e, li), s1)
    | (.ok m, s1) =>
      match pyGetattr m name with
      | some v => ((.ok v, { li with module := some m }), s1)
      | Option.none =>
          ((.error (.attributeError li.module_name name), { li with module := some m }), s1)

/-- `LazyAttribute`: `_attr` is `Optional[Any] = None` and later holds the
resolved attribute — a Python value.  Because the unresolved marker is the
same `None` a resolved attribute may equal, the slot is a `PVal` with
`PVal.none` initial, exactly the `self._attr is None` test of the source. -/
structure LazyAttribute where
  module_name : String
  attr_name : String
  attr : PVal
deriving DecidableEq, Repr

/-- `LazyAttribute(module_name, attr_name)`: construction does no work. -/
def LazyAttribute.mk0 (module_name attr_name : String) : LazyAttribute :=
  ⟨module_name, attr_name, PVal.none⟩

/-- `LazyAttribute.__call__` (and `__getattr__` shares the same resolution
step): if `self._attr is None`, resolve through `get_module_attr` and store
the result; then the stored target is the one invoked/forwarded to.  The
returned value is the target the access reaches. -/
def LazyAttribute.callAccess (env : PyEnv) (s : LoadState) (la : LazyAttribute) :
    (Except LoadErr PVal × LazyAttribute) × LoadState :=
  match la.attr with
  | .obj t => ((.ok (.obj t), la), s)
  | .none =>
    match get_module_attr env s la.module_name la.attr_name with
    | (.error e, s1) => ((.error e, la), s1)
    | (.ok v, s1) => ((.ok v, { la with attr := v }), s1)

/-!
## The backend registry and singleton (`factory.py`)
-/

/-!
Modelled from the spec: the closed `VectorType` enumeration
(`open_webui/retrieval/vector/type.py` is not among the sampled sources) —
"a closed enumeration of supported backend kinds plus one explicit
`Disabled` value".  The identifiers are strings; only their distinctness
matters, so canonical lowercase values are chosen.
-/

namespace VectorType

def DISABLED : String := "disabled"

def MILVUS : String := "milvus"

def QDRANT : String := "qdrant"

def PINECONE : String := "pinecone"

def OPENSEARCH : String := "opensearch"

def PGVECTOR : String := "pgvector"

def ELASTICSEARCH : String := "elasticsearch"

def CHROMA : String := "chroma"

end VectorType

/-- The closed enumeration `Vector.get_vector` dispatches over: the seven
supported backend kinds plus the disabled value. -/
def supportedVectorTypes : List String :=
  [VectorType.DISABLED, VectorType.MILVUS, VectorType.QDRANT, VectorType.PINECONE,
   VectorType.OPENSEARCH, VectorType.PGVECTOR, VectorType.ELASTICSEARCH,
   VectorType.CHROMA]

/-- A constructed backend client instance (`MilvusClient()`,
`QdrantClient()`, ... are external collaborators behind `VectorDBBase`; only
their identity matters here). -/
inductive Client where
  | milvus
  | qdrantMultitenancy
  | qdrant
  | pinecone
  | opensearch
  | pgvector
  | elasticsearch
  | chroma
deriving DecidableEq, Repr

/-- A backend-specific dependency module, deferred-imported inside exactly
one arm of the `match` in `Vector.get_vector`
(`open_webui.retrieval.vector.dbs.*`). -/
inductive Dep where
  | milvus
  | qdrant_multitenancy
  | qdrant
  | pinecone
  | opensearch
  | pgvector
  | elasticsearch
  | chroma
deriving DecidableEq, Repr

/-- The variant a dependency module is exclusive to: the `VectorType`
identifier whose `match` arm imports it.  Both qdrant modules belong to the
`QDRANT` variant (the multitenancy flag picks between them). -/
def Dep.variant : Dep → String
  | .milvus => VectorType.MILVUS
  | .qdrant_multitenancy => VectorType.QDRANT
  | .qdrant => VectorType.QDRANT
  | .pinecone => VectorType.PINECONE
  | .opensearch => VectorType.OPENSEARCH
  | .pgvector => VectorType.PGVECTOR
  | .elasticsearch => VectorType.ELASTICSEARCH
  | .chroma => VectorType.CHROMA

/-- The world outside `factory.py`: constructing a client of a just-imported
dependency module (`MilvusClient()`, ...) either yields an instance or
raises (its import may equally fail; both surface as the same raise). -/
structure FactoryEnv where
  construct : Dep → Except String Client

/-- The exceptions `factory.py` lets escape: the
`ValueError(f"Unsupported vector type: ...")` of the default `match` arm,
carrying the offending identifier, or an exception out of a backend
constructor/import. -/
inductive FErr where
  | unsupportedVectorType (vector_type : String)
  | constructorError (msg : String)
deriving DecidableEq, Repr

/-- `Vector.get_vector(vector_type)`: the registry dispatch.  Returns the
result (Python `None` — `Option.none` — for `DISABLED`, a constructed client
otherwise) together with the list of backend-specific dependency modules
whose deferred import the taken arm executed. -/
def Vector.get_vector (env : FactoryEnv) (qdrantMultitenancyMode : Bool)
    (vector_type : String) : Except FErr (Option Client) × List Dep :=
  if vector_type = VectorType.DISABLED then
    (.ok Option.none, [])
  else if vector_type = VectorType.MILVUS then
    match env.construct .milvus with
    | .ok c => (.ok (some c), [.milvus])
    | .error e => (.error (.constructorError e), [.milvus])
  else if vector_type = VectorType.QDRANT then
    if qdrantMultitenancyMode then
      match env.construct .qdrant_multitenancy with
      | .ok c => (.ok (some c), [.qdrant_multitenancy])
      | .error e => (.error (.constructorError e), [.qdrant_multitenancy])
    else
      match env.construct .qdrant with
      | .ok c => (.ok (some c), [.qdrant])
      | .error e => (.error (.constructorError e), [.qdrant])
  else if vector_type = VectorType.PINECONE then
    match env.construct .pinecone with
    | .ok c => (.ok (some c), [.pinecone])
    | .error e => (.error (.constructorError e), [.pinecone])
  else if vector_type = VectorType.OPENSEARCH then
    match env.construct .opensearch with
    | .ok c => (.ok (some c), [.opensearch])
    | .error e => (.error (.constructorError e), [.opensearch])
  else if vector_type = VectorType.PGVECTOR then
    match env.construct .pgvector with
    | .ok c => (.ok (some c), [.pgvector])
    | .error e => (.error (.constructorError e), [.pgvector])
  else if vector_type = VectorType.ELASTICSEARCH then
    match env.construct .elasticsearch with
    | .ok c => (.ok (some c), [.elasticsearch])
    | .error e => (.error (.constructorError e), [.elasticsearch])
  else if vector_type = VectorType.CHROMA then
    match env.construct .chroma with
    | .ok c => (.ok (some c), [.chroma])
    | .error e => (.error (.constructorError e), [.chroma])
  else
    (.error (.unsupportedVectorType vector_type), [])

/-- The module-level state of `factory.py`: the singleton slot
`_vector_db_client` (a Python variable holding `None` — `Option.none` — or a
client) plus a ghost counter of `Vector.get_vector` invocations. -/
structure FactoryState where
  vector_db_client : Option Client
  dispatchCount : Nat
deriving DecidableEq, Repr

/-- Module import time: `_vector_db_client = None`. -/
def initFactoryState : FactoryState := ⟨Option.none, 0⟩

/-- `get_vector_db_client()`: if `_vector_db_client is None`, assign it
`Vector.get_vector(VECTOR_DB)` (a raise skips the assignment), then return
it. -/
def get_vector_db_client (env : FactoryEnv) (qdrantMultitenancyMode : Bool)
    (VECTOR_DB : String) (s : FactoryState) :
    Except FErr (Option Client) × FactoryState :=
  match s.vector_db_client with
  | some c => (.ok (some c), s)
  | Option.none =>
    match Vector.get_vector env qdrantMultitenancyMode VECTOR_DB with
    | (.ok v, _) =>
        (.ok v, { s with vector_db_client := v, dispatchCount := s.dispatchCount + 1 })
    | (.error e, _) =>
        (.error e, { s with dispatchCount := s.dispatchCount + 1 })

/-- What an access through the guarded proxy `VECTOR_DB_CLIENT` comes to:
forwarded to the real client, stopped by the disabled `RuntimeError`, or an
exception out of construction/dispatch. -/
inductive ProxyOutcome where
  | forwarded (c : Client) (member : String)
  | runtimeError (msg : String)
  | raised (e : FErr)
deriving DecidableEq, Repr

/-- The message of the disabled-path `RuntimeError`. -/
def disabledMsg : String := "Vector database is disabled (DISABLE_VECTOR_DB=true)"

/-- `VectorDBClientLazy.__getattr__(self, name)`: fetch the singleton,
raise the disabled `RuntimeError` when it is `None`, otherwise forward
`getattr(client, name)`. -/
def VectorDBClientLazy.getattrAccess (env : FactoryEnv)
    (qdrantMultitenancyMode : Bool) (VECTOR_DB : String) (s : FactoryState)
    (name : String) : ProxyOutcome × FactoryState :=
  match get_vector_db_client env qdrantMultitenancyMode VECTOR_DB s with
  | (.ok Option.none, s1) => (.runtimeError disabledMsg, s1)
  | (.ok (some c), s1) => (.forwarded c name, s1)
  | (.error e, s1) => (.raised e, s1)

/-- `VectorDBClientLazy.__call__(self, *args, **kwargs)`: fetch the
singleton, raise the disabled `RuntimeError` when it is `None`, otherwise
forward the call to the client. -/
def VectorDBClientLazy.callAccess (env : FactoryEnv)
    (qdrantMultitenancyMode : Bool) (VECTOR_DB : String) (s : FactoryState) :
    ProxyOutcome × FactoryState :=
  match get_vector_db_client env qdrantMultitenancyMode VECTOR_DB s with
  | (.ok Option.none, s1) => (.runtimeError disabledMsg, s1)
  | (.ok (some c), s1) => (.forwarded c "__call__", s1)
  | (.error e, s1) => (.raised e, s1)

/-!
## Operation sequences over the whole process state
-/

/-- One observable operation against the two modules. -/
inductive Op where
  | get
  | proxyGetattr (name : String)
  | proxyCall
  | clearModuleCache
deriving DecidableEq, Repr

/-- The whole per-process state: the factory module's and the
optimized-loading module's. -/
structure SysState where
  fs : FactoryState
  ls : LoadState
deriving DecidableEq, Repr

/-- Process start. -/
def initSysState : SysState := ⟨initFactoryState, initLoadState⟩

/-- Run one operation.  `clear_module_cache` touches only the symbol cache;
nothing in the sampled sources resets `_vector_db_client`. -/
def runOp (env : FactoryEnv) (qdrantMultitenancyMode : Bool)
    (VECTOR_DB : String) (st : SysState) : Op → SysState
  | .get =>
      { st with fs := (get_vector_db_client env qdrantMultitenancyMode VECTOR_DB st.fs).2 }
  | .proxyGetattr name =>
      { st with fs :=
          (VectorDBClientLazy.getattrAccess env qdrantMultitenancyMode VECTOR_DB st.fs name).2 }
  | .proxyCall =>
      { st with fs :=
          (VectorDBClientLazy.callAccess env qdrantMultitenancyMode VECTOR_DB st.fs).2 }
  | .clearModuleCache => { st with ls := clear_module_cache st.ls }

/-- Run a sequence of operations, left to right. -/
def runOps (env : FactoryEnv) (qdrantMultitenancyMode : Bool)
    (VECTOR_DB : String) (ops : List Op) (st : SysState) : SysState :=
  ops.foldl (runOp env qdrantMultitenancyMode VECTOR_DB) st

/-- `n` successive `get_vector_db_client()` calls, keeping only the state. -/
def iterGet (env : FactoryEnv) (qdrantMultitenancyMode : Bool)
    (VECTOR_DB : String) : Nat → FactoryState → FactoryState
  | 0, s => s
  | n + 1, s => iterGet env qdrantMultitenancyMode VECTOR_DB n
      (get_vector_db_client env qdrantMultitenancyMode VECTOR_DB s).2

/-!
## Concrete evaluation fixtures
-/

/-- A constructor environment in which every backend constructs. -/
def okEnv : FactoryEnv :=
  ⟨fun d => .ok (match d with
    | .milvus => .milvus
    | .qdrant_multitenancy => .qdrantMultitenancy
    | .qdrant => .qdrant
    | .pinecone => .pinecone
    | .opensearch => .opensearch
    | .pgvector => .pgvector
    | .elasticsearch => .elasticsearch
    | .chroma => .chroma)⟩

/-- A constructor environment in which every backend construction raises. -/
def failEnv : FactoryEnv := ⟨fun _ => .error "boom"⟩

/-- A module with one ordinary attribute. -/
def mathModule : PyModule := ⟨"math", [("pi", PVal.obj "float-pi")]⟩

/-- A module whose attribute `f` exists but has the value `None`. -/
def noneAttrModule : PyModule := ⟨"m", [("f", PVal.none)]⟩

/-- A concrete import system with the two modules above. -/
def testEnv : PyEnv := ⟨[("math", mathModule), ("m", noneAttrModule)]⟩

/-!
## Helper lemmas
-/

/-- Dispatch on the disabled identifier returns Python `None` and imports
nothing, whatever the environment. -/
lemma get_vector_disabled (env : FactoryEnv) (q : Bool) :
    Vector.get_vector env q VectorType.DISABLED = (.ok Option.none, []) := rfl

/-- A set singleton slot makes `get_vector_db_client` a pure read. -/
lemma get_vector_db_client_of_some (env : FactoryEnv) (q : Bool) (vdb : String)
    (s : FactoryState) (c : Client) (h : s.vector_db_client = some c) :
    get_vector_db_client env q vdb s = (.ok (some c), s) := by
  simp [get_vector_db_client, h]

/-- With the disabled identifier configured and the slot unset,
`get_vector_db_client` dispatches, assigns `None` (leaving the slot unset)
and returns `None`. -/
lemma get_vector_db_client_disabled (env : FactoryEnv) (q : Bool)
    (s : FactoryState) (h : s.vector_db_client = Option.none) :
    get_vector_db_client env q VectorType.DISABLED s =
      (.ok Option.none, ⟨Option.none, s.dispatchCount + 1⟩) := by
  simp [get_vector_db_client, h, get_vector_disabled]

/-- No single operation moves a set slot. -/
lemma runOp_preserves_some (env : FactoryEnv) (q : Bool) (vdb : String)
    (st : SysState) (op : Op) (c : Client) (h : st.fs.vector_db_client = some c) :
    (runOp env q vdb st op).fs.vector_db_client = some c := by
  cases op <;>
    simp [runOp, get_vector_db_client_of_some env q vdb st.fs c h,
      VectorDBClientLazy.getattrAccess, VectorDBClientLazy.callAccess, h]

/-- No operation sequence moves a set slot. -/
lemma runOps_preserves_some (env : FactoryEnv) (q : Bool) (vdb : String)
    (ops : List Op) (st : SysState) (c : Client)
    (h : st.fs.vector_db_client = some c) :
    (runOps env q vdb ops st).fs.vector_db_client = some c := by
  induction ops generalizing st with
  | nil => exact h
  | cons op rest ih =>
      exact ih _ (runOp_preserves_some env q vdb st op c h)

/-- Under the disabled identifier, no single operation sets the slot. -/
lemma runOp_disabled_none (env : FactoryEnv) (q : Bool) (st : SysState)
    (op : Op) (h : st.fs.vector_db_client = Option.none) :
    (runOp env q VectorType.DISABLED st op).fs.vector_db_client = Option.none := by
  cases op <;>
    simp [runOp, get_vector_db_client_disabled env q st.fs h,
      VectorDBClientLazy.getattrAccess, VectorDBClientLazy.callAccess, h]

/-- Under the disabled identifier, no operation sequence ever sets the
slot: the `None` the dispatch returns is indistinguishable from unset. -/
lemma runOps_disabled_none (env : FactoryEnv) (q : Bool) (ops : List Op)
    (st : SysState) (h : st.fs.vector_db_client = Option.none) :
    (runOps env q VectorType.DISABLED ops st).fs.vector_db_client = Option.none := by
  induction ops generalizing st with
  | nil => exact h
  | cons op rest ih =>
      exact ih _ (runOp_disabled_none env q st op h)

/-- Under the disabled identifier, every `get_vector_db_client` call from
an unset slot re-invokes the dispatch: `n` calls count `n` invocations. -/
lemma iterGet_disabled (env : FactoryEnv) (q : Bool) (n : Nat)
    (s : FactoryState) (h : s.vector_db_client = Option.none) :
    iterGet env q VectorType.DISABLED n s =
      ⟨Option.none, s.dispatchCount + n⟩ := by
  induction n generalizing s with
  | zero => cases s; simp_all [iterGet]
  | succ n ih =>
      rw [iterGet, get_vector_db_client_disabled env q s h, ih _ rfl]
      simp [Nat.add_assoc, Nat.add_comm 1 n]

/-- A set slot makes `iterGet` the identity. -/
lemma iterGet_of_some (env : FactoryEnv) (q : Bool) (vdb : String) (n : Nat)
    (s : FactoryState) (c : Client) (h : s.vector_db_client = some c) :
    iterGet env q vdb n s = s := by
  induction n with
  | zero => rfl
  | succ n ih => rw [iterGet, get_vector_db_client_of_some env q vdb s c h, ih]

/-!
## The claims
-/

/-- C1, counterexample.  The claim says `get_vector_db_client` computes its
result by calling `Vector.get_vector` at most once per process, the
disabled sentinel included.  False on the code: the disabled dispatch
returns `None`, the very value the `if _vector_db_client is None` guard
treats as "not yet computed", so with the `DISABLED` identifier configured
two calls from process start invoke the dispatch twice. -/
theorem C1_counterexample_disabled_redispatch :
    ¬ (iterGet okEnv false VectorType.DISABLED 2 initFactoryState).dispatchCount ≤ 1 := by
  decide

/-- C1, amended.  For an identifier whose dispatch yields a constructed
(non-`None`) client, the first `get_vector_db_client` call caches it and
every later call returns the cached client without invoking the dispatch
again; when the identifier is `Disabled` the dispatch result `None` is
indistinguishable from the unset slot, so every call re-invokes the
dispatch (each time returning `None`). -/
theorem C1_amended_singleton_caching (env : FactoryEnv) (q : Bool) :
    (∀ vdb s v, s.vector_db_client = Option.none →
      (Vector.get_vector env q vdb).1 = .ok v →
      get_vector_db_client env q vdb s = (.ok v, ⟨v, s.dispatchCount + 1⟩)) ∧
    (∀ vdb s c n, s.vector_db_client = some c →
      get_vector_db_client env q vdb s = (.ok (some c), s) ∧
      iterGet env q vdb n s = s) ∧
    (∀ n, iterGet env q VectorType.DISABLED n initFactoryState =
      ⟨Option.none, n⟩) := by
  refine ⟨?_, ?_, ?_⟩
  · intro vdb s v hs hv
    rcases hd : Vector.get_vector env q vdb with ⟨r, deps⟩
    rw [hd] at hv
    simp at hv
    simp [get_vector_db_client, hs, hd, hv]
  · intro vdb s c n hs
    exact ⟨get_vector_db_client_of_some env q vdb s c hs,
      iterGet_of_some env q vdb n s c hs⟩
  · intro n
    simpa [initFactoryState] using iterGet_disabled env q n initFactoryState rfl

/-- C1, witness for the amended theorem at concrete inputs. -/
theorem C1_amended_singleton_caching_witness :
    get_vector_db_client okEnv false VectorType.CHROMA ⟨some Client.chroma, 1⟩ =
      (.ok (some Client.chroma), ⟨some Client.chroma, 1⟩) ∧
    iterGet okEnv false VectorType.CHROMA 3 ⟨some Client.chroma, 1⟩ =
      ⟨some Client.chroma, 1⟩ ∧
    iterGet okEnv false VectorType.DISABLED 3 initFactoryState = ⟨Option.none, 3⟩ :=
  ⟨((C1_amended_singleton_caching okEnv false).2.1 VectorType.CHROMA
      ⟨some Client.chroma, 1⟩ Client.chroma 3 rfl).1,
   ((C1_amended_singleton_caching okEnv false).2.1 VectorType.CHROMA
      ⟨some Client.chroma, 1⟩ Client.chroma 3 rfl).2,
   (C1_amended_singleton_caching okEnv false).2.2 3⟩

/-- C2, counterexample.  The claim says the disabled dispatch returns a
distinct tagged sentinel that is not `None`.  False on the code: the
`DISABLED` arm is literally `return None`, the Python null. -/
theorem C2_counterexample_disabled_returns_none :
    (Vector.get_vector okEnv false VectorType.DISABLED).1 = .ok Option.none := rfl

/-- C2, amended.  Applied to the `Disabled` identifier, the registry
dispatch returns Python `None` (not a distinct tagged value) without
importing or constructing any backend-specific dependency; the
`None`-vs-disabled interpretation is left to the callers
(`get_vector_db_client`'s guard and the proxy's `RuntimeError`). -/
theorem C2_amended_disabled_dispatch (env : FactoryEnv) (q : Bool) :
    Vector.get_vector env q VectorType.DISABLED = (.ok Option.none, []) :=
  get_vector_disabled env q

/-- C3.  With the disabled identifier configured (so the slot holds
`None`, as it does from process start onward — last conjunct), every
`__getattr__` and every `__call__` through `VECTOR_DB_CLIENT` raises the
disabled `RuntimeError` instead of forwarding, and the dispatch the access
triggers imports no backend-specific module. -/
theorem C3_proxy_disabled_raises (env : FactoryEnv) (q : Bool)
    (s : FactoryState) (name : String)
    (h : s.vector_db_client = Option.none) :
    VectorDBClientLazy.getattrAccess env q VectorType.DISABLED s name =
      (.runtimeError disabledMsg, ⟨Option.none, s.dispatchCount + 1⟩) ∧
    VectorDBClientLazy.callAccess env q VectorType.DISABLED s =
      (.runtimeError disabledMsg, ⟨Option.none, s.dispatchCount + 1⟩) ∧
    (Vector.get_vector env q VectorType.DISABLED).2 = [] ∧
    (∀ ops, (runOps env q VectorType.DISABLED ops initSysState).fs.vector_db_client =
      Option.none) := by
  refine ⟨?_, ?_, rfl, fun ops => runOps_disabled_none env q ops initSysState rfl⟩
  · simp [VectorDBClientLazy.getattrAccess, get_vector_db_client_disabled env q s h]
  · simp [VectorDBClientLazy.callAccess, get_vector_db_client_disabled env q s h]

/-- C3, witness at concrete inputs. -/
theorem C3_proxy_disabled_raises_witness :
    VectorDBClientLazy.getattrAccess okEnv false VectorType.DISABLED
      initFactoryState "search" =
      (.runtimeError disabledMsg, ⟨Option.none, 1⟩) :=
  (C3_proxy_disabled_raises okEnv false initFactoryState "search" rfl).1

/-- C4, counterexample.  The claim says that once the slot is set — to a
constructed handle or to the disabled sentinel — no operation short of an
administrative reset returns it to unset or replaces its value.  False on
the code for the sentinel half: the disabled dispatch's `None` is assigned
to `_vector_db_client`, after which the slot is exactly the unset state, and
the next call performs a fresh dispatch (replacing the value again), with no
reset involved. -/
theorem C4_counterexample_sentinel_not_retained :
    (runOps okEnv false VectorType.DISABLED [Op.get] initSysState).fs.vector_db_client =
      Option.none ∧
    (runOps okEnv false VectorType.DISABLED [Op.get, Op.get]
      initSysState).fs.dispatchCount = 2 := by
  decide

/-- C4, amended.  Once the slot holds a constructed (non-`None`) backend
handle, no sequence of factory-module operations — `get_vector_db_client`
calls, proxy accesses or calls, symbol-cache invalidations — unsets or
replaces it (no administrative reset exists in the sampled sources); the
disabled sentinel, being `None`, never makes the slot set in the first
place. -/
theorem C4_amended_slot_never_regresses (env : FactoryEnv) (q : Bool)
    (vdb : String) (ops : List Op) (st : SysState) (c : Client)
    (h : st.fs.vector_db_client = some c) :
    (runOps env q vdb ops st).fs.vector_db_client = some c :=
  runOps_preserves_some env q vdb ops st c h

/-- C4, witness for the amended theorem at concrete inputs. -/
theorem C4_amended_slot_never_regresses_witness :
    (runOps okEnv false VectorType.CHROMA
      [Op.get, Op.clearModuleCache, Op.proxyCall, Op.proxyGetattr "search", Op.get]
      ⟨⟨some Client.chroma, 1⟩, initLoadState⟩).fs.vector_db_client =
      some Client.chroma :=
  C4_amended_slot_never_regresses okEnv false VectorType.CHROMA
    [Op.get, Op.clearModuleCache, Op.proxyCall, Op.proxyGetattr "search", Op.get]
    ⟨⟨some Client.chroma, 1⟩, initLoadState⟩ Client.chroma rfl

/-- C7.  When the selected backend's construction raises on the first
`get_vector_db_client` call, the exception propagates to that caller
unswallowed, the assignment is skipped so the slot stays unset — never
half-set — and the policy is consistently retry-on-next-access: the next
call performs a fresh dispatch with the same outcome. -/
theorem C7_construction_failure_leaves_slot_unset (env : FactoryEnv)
    (q : Bool) (vdb : String) (s : FactoryState) (e : FErr)
    (hs : s.vector_db_client = Option.none)
    (hd : (Vector.get_vector env q vdb).1 = .error e) :
    (get_vector_db_client env q vdb s).1 = .error e ∧
    (get_vector_db_client env q vdb s).2.vector_db_client = Option.none ∧
    (get_vector_db_client env q vdb (get_vector_db_client env q vdb s).2).1 =
      .error e ∧
    (get_vector_db_client env q vdb
      (get_vector_db_client env q vdb s).2).2.dispatchCount =
      s.dispatchCount + 2 := by
  rcases hv : Vector.get_vector env q vdb with ⟨r, deps⟩
  rw [hv] at hd
  simp at hd
  subst hd
  simp [get_vector_db_client, hs, hv]

/-- C7, witness: a constructor that raises, with the slot remaining unset
and the exception surfacing on both of the first two calls. -/
theorem C7_construction_failure_leaves_slot_unset_witness :
    (get_vector_db_client failEnv false VectorType.MILVUS initFactoryState).1 =
      .error (.constructorError "boom") ∧
    (get_vector_db_client failEnv false VectorType.MILVUS
      initFactoryState).2.vector_db_client = Option.none :=
  ⟨(C7_construction_failure_leaves_slot_unset failEnv false VectorType.MILVUS
      initFactoryState (.constructorError "boom") rfl rfl).1,
   (C7_construction_failure_leaves_slot_unset failEnv false VectorType.MILVUS
      initFactoryState (.constructorError "boom") rfl rfl).2.1⟩

/-- C8.  Any identifier outside the closed enumeration makes
`Vector.get_vector` raise the `ValueError` carrying that identifier,
importing and constructing nothing; a `get_vector_db_client` call hitting
this leaves the singleton slot unset. -/
theorem C8_unsupported_identifier_raises (env : FactoryEnv) (q : Bool)
    (vt : String) (s : FactoryState)
    (h : vt ∉ supportedVectorTypes)
    (hs : s.vector_db_client = Option.none) :
    Vector.get_vector env q vt = (.error (.unsupportedVectorType vt), []) ∧
    (get_vector_db_client env q vt s).1 = .error (.unsupportedVectorType vt) ∧
    (get_vector_db_client env q vt s).2.vector_db_client = Option.none := by
  simp only [supportedVectorTypes, List.mem_cons, List.mem_singleton, not_or] at h
  obtain ⟨h1, h2, h3, h4, h5, h6, h7, h8, -⟩ := h
  have hv : Vector.get_vector env q vt = (.error (.unsupportedVectorType vt), []) := by
    simp [Vector.get_vector, h1, h2, h3, h4, h5, h6, h7, h8]
  exact ⟨hv, by simp [get_vector_db_client, hs, hv]⟩

/-- C8, witness at the identifier "nonexistent". -/
theorem C8_unsupported_identifier_raises_witness :
    Vector.get_vector okEnv false "nonexistent" =
      (.error (.unsupportedVectorType "nonexistent"), []) :=
  (C8_unsupported_identifier_raises okEnv false "nonexistent" initFactoryState
    (by decide) rfl).1

/-- C9.  Selection is effect-framed: every backend-specific dependency
module whose deferred import `Vector.get_vector X` executes belongs to the
selected variant `X` itself — no dependency exclusive to another variant is
loaded — and at most one such module is imported. -/
theorem C9_selection_imports_only_selected_variant (env : FactoryEnv)
    (q : Bool) (vt : String) (d : Dep)
    (h : d ∈ (Vector.get_vector env q vt).2) :
    Dep.variant d = vt ∧ (Vector.get_vector env q vt).2.length ≤ 1 := by
  unfold Vector.get_vector at h ⊢
  split_ifs at h ⊢ <;> (try split at h) <;> simp_all [Dep.variant]

/-- C9, witness: selecting Milvus imports exactly the Milvus module, which
belongs to the Milvus variant. -/
theorem C9_selection_imports_only_selected_variant_witness :
    Dep.milvus ∈ (Vector.get_vector okEnv false VectorType.MILVUS).2 ∧
    Dep.variant Dep.milvus = VectorType.MILVUS :=
  ⟨by decide,
   (C9_selection_imports_only_selected_variant okEnv false VectorType.MILVUS
      Dep.milvus (by decide)).1⟩

/-- C5.  The symbol cache is idempotent with explicit invalidation.  From
process start, for any resolvable key: the first `get_module` call invokes
the import once; the second call returns the identical cached module with
the state (hence the invocation counter) untouched; after
`clear_module_cache` the next call re-invokes the import.  Likewise for
`get_module_attr` on the compound key. -/
theorem C5_cache_idempotent_with_invalidation (env : PyEnv) (m a : String)
    (M : PyModule) (v : PVal)
    (hm : pyImport env m = some M) (ha : pyGetattr M a = some v) :
    (get_module env initLoadState m).1 = .ok M ∧
    (get_module env initLoadState m).2.loadCount = 1 ∧
    get_module env (get_module env initLoadState m).2 m =
      (.ok M, (get_module env initLoadState m).2) ∧
    (get_module env (clear_module_cache (get_module env initLoadState m).2)
      m).2.loadCount = 2 ∧
    (get_module_attr env initLoadState m a).1 = .ok v ∧
    (get_module_attr env initLoadState m a).2.loadCount = 1 ∧
    (get_module_attr env initLoadState m a).2.getattrCount = 1 ∧
    get_module_attr env (get_module_attr env initLoadState m a).2 m a =
      (.ok v, (get_module_attr env initLoadState m a).2) ∧
    (get_module_attr env (clear_module_cache
      (get_module_attr env initLoadState m a).2) m a).1 = .ok v ∧
    (get_module_attr env (clear_module_cache
      (get_module_attr env initLoadState m a).2) m a).2.loadCount = 2 := by
  refine ⟨?_, ?_, ?_, ?_, ?_, ?_, ?_, ?_, ?_, ?_⟩ <;>
    simp [get_module, get_module_attr, clear_module_cache, initLoadState,
      hm, ha, List.lookup]

/-- C5, witness at the concrete key ("math", "pi"). -/
theorem C5_cache_idempotent_with_invalidation_witness :
    (get_module testEnv initLoadState "math").1 = .ok mathModule ∧
    (get_module_attr testEnv initLoadState "math" "pi").1 =
      .ok (PVal.obj "float-pi") :=
  ⟨(C5_cache_idempotent_with_invalidation testEnv "math" "pi" mathModule
      (PVal.obj "float-pi") (by decide) (by decide)).1,
   (C5_cache_idempotent_with_invalidation testEnv "math" "pi" mathModule
      (PVal.obj "float-pi") (by decide) (by decide)).2.2.2.2.1⟩

/-- C10.  Failed resolutions are never cached.  A failing import leaves the
module cache without an entry, so the next call re-invokes the import; a
failing attribute lookup leaves the attribute cache without an entry, so
the next call re-attempts the `getattr` (the module itself, a successful
resolution, stays cached in `get_module`'s own table). -/
theorem C10_failures_not_cached (env : PyEnv) (m1 m2 a : String)
    (M : PyModule)
    (h1 : pyImport env m1 = Option.none)
    (h2 : pyImport env m2 = some M)
    (h3 : pyGetattr M a = Option.none) :
    (get_module env initLoadState m1).1 = .error (.importError m1) ∧
    (get_module env initLoadState m1).2.modCache = [] ∧
    (get_module env initLoadState m1).2.loadCount = 1 ∧
    (get_module env (get_module env initLoadState m1).2 m1).1 =
      .error (.importError m1) ∧
    (get_module env (get_module env initLoadState m1).2 m1).2.loadCount = 2 ∧
    (get_module_attr env initLoadState m2 a).1 = .error (.attributeError m2 a) ∧
    (get_module_attr env initLoadState m2 a).2.attrCache = [] ∧
    (get_module_attr env initLoadState m2 a).2.getattrCount = 1 ∧
    (get_module_attr env (get_module_attr env initLoadState m2 a).2 m2 a).1 =
      .error (.attributeError m2 a) ∧
    (get_module_attr env (get_module_attr env initLoadState m2 a).2
      m2 a).2.getattrCount = 2 ∧
    (get_module_attr env (get_module_attr env initLoadState m2 a).2
      m2 a).2.loadCount = 1 := by
  refine ⟨?_, ?_, ?_, ?_, ?_, ?_, ?_, ?_, ?_, ?_, ?_⟩ <;>
    simp [get_module, get_module_attr, initLoadState, h1, h2, h3, List.lookup]

/-- C10, witness: a missing module and a present module's missing
attribute, each erroring without creating a cache entry. -/
theorem C10_failures_not_cached_witness :
    (get_module testEnv initLoadState "missing").1 =
      .error (.importError "missing") ∧
    (get_module_attr testEnv initLoadState "math" "nope").1 =
      .error (.attributeError "math" "nope") :=
  ⟨(C10_failures_not_cached testEnv "missing" "math" "nope" mathModule
      (by decide) (by decide) (by decide)).1,
   (C10_failures_not_cached testEnv "missing" "math" "nope" mathModule
      (by decide) (by decide) (by decide)).2.2.2.2.2.1⟩

/-- C6, counterexample.  The claim says every lazy proxy whose first access
has successfully resolved its target keeps forwarding to the locally stored
target, unaffected by a global invalidation.  False on the code for a
`LazyAttribute` whose target attribute has the value `None`: the resolution
succeeds and stores `None` in `self._attr`, which the `is None` guard
cannot tell from "unresolved", so after `clear_module_cache` the next
access re-invokes the loader (the import counter reaches 2) instead of
using the stored target. -/
theorem C6_counterexample_none_target_reresolves :
    (LazyAttribute.callAccess testEnv initLoadState
      (LazyAttribute.mk0 "m" "f")).1.1 = .ok PVal.none ∧
    (LazyAttribute.callAccess testEnv
      (clear_module_cache
        (LazyAttribute.callAccess testEnv initLoadState
          (LazyAttribute.mk0 "m" "f")).2)
      (LazyAttribute.callAccess testEnv initLoadState
        (LazyAttribute.mk0 "m" "f")).1.2).2.loadCount = 2 := by
  refine ⟨rfl, rfl⟩

/-- C6, amended.  A lazy proxy whose local reference holds a resolved
non-`None` target — a `LazyImport` with its module stored, a
`LazyAttribute` with a non-`None` attribute stored — forwards every access
to that stored target with the symbol cache state untouched and the loader
never re-invoked, whatever the cache state (in particular, right after
`clear_module_cache`). -/
theorem C6_amended_resolved_proxy_forwards_locally (env : PyEnv)
    (mn an nm t : String) (M : PyModule) (s : LoadState) :
    (∀ v, pyGetattr M nm = some v →
      LazyImport.getattrAccess env s ⟨mn, some M⟩ nm = ((.ok v, ⟨mn, some M⟩), s)) ∧
    LazyAttribute.callAccess env s ⟨mn, an, PVal.obj t⟩ =
      ((.ok (PVal.obj t), ⟨mn, an, PVal.obj t⟩), s) ∧
    LazyAttribute.callAccess env (clear_module_cache s) ⟨mn, an, PVal.obj t⟩ =
      ((.ok (PVal.obj t), ⟨mn, an, PVal.obj t⟩), clear_module_cache s) := by
  refine ⟨fun v hv => ?_, rfl, rfl⟩
  simp [LazyImport.getattrAccess, hv]

/-- C6, witness for the amended theorem at a resolved `LazyImport`. -/
theorem C6_amended_resolved_proxy_forwards_locally_witness :
    LazyImport.getattrAccess testEnv initLoadState ⟨"math", some mathModule⟩
      "pi" = ((.ok (PVal.obj "float-pi"), ⟨"math", some mathModule⟩),
        initLoadState) :=
  (C6_amended_resolved_proxy_forwards_locally testEnv "math" "pi" "pi" "x"
    mathModule initLoadState).1 (PVal.obj "float-pi") (by decide)

end OWUI
